import Mathlib

/-
Verification development for the Agora scientific-news pipeline
(fetcher.py, scraper.py, analyzer.py, ranker.py).

The Python stages are shallowly embedded as executable Lean functions.
Remote I/O (HTTP responses, parsed JSON payloads) is passed in explicitly
as oracle values, one per attempt, so that retry loops, backoff delays,
progress-counter updates and fallback chains become pure functions whose
traces can be inspected and proved about.
-/

set_option maxRecDepth 4096

/-! ## String utilities (models of the Python `str` operations used) -/

/-- Is the first char list a prefix of the second (char-by-char equality)? -/
def charListPfx : List Char → List Char → Bool
  | [], _ => true
  | _ :: _, [] => false
  | a :: as, b :: bs => a == b && charListPfx as bs

/-- Does the pattern occur as a contiguous sublist? Models Python `in` on strings. -/
def containsAux (pat : List Char) : List Char → Bool
  | [] => charListPfx pat []
  | c :: cs => charListPfx pat (c :: cs) || containsAux pat cs

/-- Model of Python `pat in s` (substring containment). -/
def strContains (s pat : String) : Bool :=
  containsAux pat.data s.data

/-- Model of Python `str.lower()` (per-character, adequate for the ASCII
patterns used by the filter). -/
def lowerStr (s : String) : String :=
  String.mk (s.data.map Char.toLower)

/-- Model of Python `str.strip()`: drop whitespace on both ends. -/
def pyStrip (s : String) : String :=
  String.mk (((s.data.dropWhile Char.isWhitespace).reverse.dropWhile Char.isWhitespace).reverse)

/-! ## Data model

A Python `datetime`: an abstract wall-clock instant plus an optional
timezone (`none` = naive). `replace(tzinfo=timezone.utc)` is modelled by
setting `tz := some 0`. -/

structure PyDateTime where
  wall : Int := 0
  tz : Option Int := none
deriving DecidableEq

/-- How `ai_relevance` is populated in ranker.py: unset, an integer score
(0 marks a failed scoring call), or the string marker used by the
skip branch (`N/A (Skipped)`). -/
inductive AIRel where
  | unset
  | score (n : Int)
  | na
deriving DecidableEq

/-- The article dict flowing through the pipeline. Fields are added by the
stages (fetcher: journal..published_display; scraper: feed_url, doi,
abstract, authors, source; analyzer: labels, title_cn, abstract_cn;
ranker: priority_score, ai_relevance); keys not yet set model as defaults.
`published_iso` and `published_display` both carry the instant they render. -/
structure Article where
  journal : String := ""
  title : String := ""
  link : String := ""
  summary : String := ""
  published_iso : PyDateTime := {}
  published_display : PyDateTime := {}
  feed_url : String := ""
  doi : Option String := none
  abstract : String := ""
  authors_full : List String := []
  authors_short : String := ""
  source : String := ""
  labels : List String := []
  title_cn : String := ""
  abstract_cn : String := ""
  priority_score : Rat := 0
  ai_relevance : AIRel := .unset
deriving DecidableEq

/-! ## fetcher.py -/

/-- A parsed feed entry as `feedparser` hands it to fetcher.py. The two
date keys hold the already-converted UTC timestamp of the corresponding
`struct_time`, `none` when the key is missing/empty/unconvertible. -/
structure FeedEntry where
  title : String := ""
  link : String := ""
  summary : String := ""
  published_parsed : Option Int := none
  updated_parsed : Option Int := none
deriving DecidableEq

/-- fetcher.py `parse_pubdate` (lines 109-126): try `published_parsed`
then `updated_parsed`; `none` when neither yields a date. -/
def parse_pubdate (e : FeedEntry) : Option Int :=
  match e.published_parsed with
  | some t => some t
  | none => e.updated_parsed

/-- The raw record fetcher.py builds for one surviving entry
(fetcher.py lines 203-211; HTML cleanup of the summary by the external
parser is elided). Dates are timezone-aware UTC. -/
def mkRawRecord (journal : String) (e : FeedEntry) (d : Int) : Article :=
  { journal := journal
    title := pyStrip e.title
    link := e.link
    summary := e.summary
    published_iso := { wall := d, tz := some 0 }
    published_display := { wall := d, tz := some 0 } }

/-- The per-entry loop of fetcher.py `fetcher_agent` (lines 178-212):
date parse (fail closed), date window (`pub < cutoff` is skipped, so the
cutoff instant itself is kept), then dedup against the `seen_links` set. -/
def fetcherLoop (cutoff : Int) : List (String × FeedEntry) → List String → List Article
  | [], _ => []
  | (journal, e) :: rest, seen =>
    match parse_pubdate e with
    | none => fetcherLoop cutoff rest seen
    | some d =>
      if d < cutoff then fetcherLoop cutoff rest seen
      else if e.link = "" ∨ seen.contains e.link then fetcherLoop cutoff rest seen
      else mkRawRecord journal e d :: fetcherLoop cutoff rest (e.link :: seen)

/-- fetcher.py `fetcher_agent` (lines 129-212) restricted to its pure
record-selection core: `cutoff_date = now - timedelta(days=days)`, then
the per-entry loop with an initially empty dedup set. Entries are the
(journal-name, entry) pairs in encounter order. -/
def fetcher_agent (now days : Int) (entries : List (String × FeedEntry)) : List Article :=
  fetcherLoop (now - days * 86400) entries []

/-- Specification-style predicate: does one entry survive the date window
(parseable date, not before the cutoff) with a usable link? -/
def survives (cutoff : Int) (p : String × FeedEntry) : Bool :=
  match parse_pubdate p.2 with
  | none => false
  | some d => !decide (d < cutoff) && !decide (p.2.link = "")

/-- Specification-style first-occurrence deduplication by link, seeded
with an already-seen set. -/
def dedupFirstByLink (seen : List String) : List (String × FeedEntry) → List (String × FeedEntry)
  | [] => []
  | p :: ps =>
    if seen.contains p.2.link then dedupFirstByLink seen ps
    else p :: dedupFirstByLink (p.2.link :: seen) ps

/-! ## scraper.py -/

/-- scraper.py `MIN_ABSTRACT_LENGTH` (line 31). -/
def MIN_ABSTRACT_LENGTH : Nat := 200

/-- scraper.py `NON_RESEARCH_TYPES` (lines 34-38). -/
def NON_RESEARCH_TYPES : List String :=
  ["news & views", "news and views", "commentary", "editorial", "news",
   "correspondence", "book review", "obituary", "retraction", "correction",
   "perspective", "world view"]

/-- scraper.py skip terms inside `is_likely_research_article` (lines 84-89). -/
def SKIP_TERMS : List String :=
  ["author correction", "publisher correction", "retraction note",
   "obituary:", "q&a:", "news:", "editorial:", "world view:",
   "career feature", "outlook:", "book review", "comment:", "policy forum",
   "news & views"]

/-- scraper.py `is_likely_research_article` (lines 64-94): URL patterns on
the lowercased link, the news-feed check on the raw `feed_url` value of the
dict (empty when the key is absent), then the case-insensitive skip terms
on the lowercased title. Returns (is_research, reason). -/
def is_likely_research_article (article : Article) : Bool × String :=
  let title := lowerStr article.title
  let link := lowerStr article.link
  let feed_url := article.feed_url
  if strContains link "nature.com/articles/d41586" then (false, "Nature News/Feature URL")
  else if strContains link "science.org/content/article/" then (false, "Science News URL")
  else if strContains feed_url "science.org/rss/news_current.xml" then (false, "Science News Feed")
  else
    match SKIP_TERMS.find? (fun term => strContains title term) with
    | some term => (false, "Detected non-research term: " ++ term)
    | none => (true, "")

/-- scraper.py `get_authors_short` (lines 55-62). -/
def get_authors_short (author_list : List String) : String :=
  if author_list = [] then "Unknown Authors"
  else
    let first_author := author_list.head?.getD ""
    let last_author := author_list.getLast?.getD ""
    if author_list.length = 1 then first_author
    else if author_list.length = 2 then first_author ++ " & " ++ last_author
    else first_author ++ " et al., " ++ last_author

/-- The metadata dict returned by either enrichment source
(scraper.py lines 114-120 and 170-177). -/
structure Metadata where
  abstract : String := ""
  authors_full : List String := []
  authors_short : String := ""
  published_date_obj : Option PyDateTime := none
  source : String := ""
deriving DecidableEq

/-- One Semantic Scholar response body as `fetch_metadata_api` reads it.
`abstract` is `data.get('abstract')` (`none` = key absent / null);
`pubDate` is two-layered: outer `none` = `data.get('publicationDate')`
falsy, inner option = the `date_parse` outcome (`none` = parse raised). -/
structure ApiResponse where
  status_code : Nat := 200
  abstract : Option String := none
  authors : List String := []
  pubDate : Option (Option PyDateTime) := none
deriving DecidableEq

/-- scraper.py `fetch_metadata_api` (lines 96-124): one GET, no retry loop.
The argument is `none` when the GET (or `response.json()`) raised; any
failure path returns `None`. Success requires status 200 and a truthy
abstract. -/
def fetch_metadata_api (resp : Option ApiResponse) : Option Metadata :=
  match resp with
  | none => none
  | some r =>
    if r.status_code = 200 then
      match r.abstract with
      | none => none
      | some a =>
        if a = "" then none
        else
          some { abstract := a
                 authors_full := r.authors
                 authors_short := get_authors_short r.authors
                 published_date_obj := r.pubDate.join
                 source := "API" }
    else none

/-- One article web page as `fetch_metadata_scrape` reads it.
`articleType` is the content of the first matching type meta tag (`none`
when no tag was found); `abstract` likewise for the abstract meta tags
(before stripping); `citationAuthors` the truthy `citation_author`
contents; `dateContent`: outer `none` = no truthy date meta content,
inner = the `date_parse` outcome. -/
structure PageResponse where
  articleType : Option String := none
  abstract : Option String := none
  citationAuthors : List String := []
  dateContent : Option (Option PyDateTime) := none
deriving DecidableEq

/-- Does the stage-1 type gate of `fetch_metadata_scrape` reject the page
(scraper.py lines 134-144)? Only fires when the meta content is truthy. -/
def typeGateRejects (articleType : Option String) : Bool :=
  match articleType with
  | none => false
  | some t =>
    if t = "" then false
    else NON_RESEARCH_TYPES.any (fun term => strContains (lowerStr t) term)

/-- scraper.py `fetch_metadata_scrape` (lines 126-181): one GET (argument
`none` when it raised or a bad status aborted), then the type gate, the
stripped-abstract length gate (< `MIN_ABSTRACT_LENGTH` rejects), and the
final `if abstract and authors` guard requiring at least one
`citation_author`. -/
def fetch_metadata_scrape (resp : Option PageResponse) : Option Metadata :=
  match resp with
  | none => none
  | some p =>
    if typeGateRejects p.articleType then none
    else
      match p.abstract.map pyStrip with
      | none => none
      | some a =>
        if a = "" ∨ a.length < MIN_ABSTRACT_LENGTH then none
        else
          let authors := p.citationAuthors
          if ¬(a = "") ∧ ¬(authors = []) then
            some { abstract := a
                   authors_full := authors
                   authors_short := get_authors_short authors
                   published_date_obj := p.dateContent.join
                   source := "Scrape" }
          else none

/-- Steps 2-3 of scraper.py `process_article` applied to a resolved
metadata dict (lines 217-232): overwrite `published_iso` and
`published_display` with the enrichment date when present (made timezone
aware, UTC assumed for naive values), then `article.update(metadata)`
(minus the popped date object). -/
def applyMetadata (a : Article) (m : Metadata) : Article :=
  let a1 :=
    match m.published_date_obj with
    | some d =>
      let sd := if d.tz = none then { d with tz := some 0 } else d
      { a with published_iso := sd, published_display := sd }
    | none => a
  { a1 with abstract := m.abstract
            authors_full := m.authors_full
            authors_short := m.authors_short
            source := m.source }

/-- The observable trace of one `process_article` run: the returned value,
the number of `pbar.update(1)` calls, and which sources were queried. -/
structure ProcTrace where
  result : Option Article := none
  pbar : Nat := 0
  apiCalled : Bool := false
  scrapeCalled : Bool := false
deriving DecidableEq

/-- scraper.py `process_article` (lines 183-241): research filter, then
DOI-keyed API lookup (`doiRes` is the `extract_doi` regex result on
`article.link`; the regex engine itself is elided), then the page scrape
as fallback, with the date/metadata application on success. The network
responses are passed in as oracles. -/
def process_article (a : Article) (doiRes : Option String)
    (apiResp : Option ApiResponse) (pageResp : Option PageResponse) : ProcTrace :=
  if ¬(is_likely_research_article a).1 then
    { result := none, pbar := 1, apiCalled := false, scrapeCalled := false }
  else
    let a1 := { a with doi := doiRes }
    match doiRes with
    | some _ =>
      match fetch_metadata_api apiResp with
      | some m =>
        { result := some (applyMetadata a1 m), pbar := 1, apiCalled := true, scrapeCalled := false }
      | none =>
        match fetch_metadata_scrape pageResp with
        | some m =>
          { result := some (applyMetadata a1 m), pbar := 1, apiCalled := true, scrapeCalled := true }
        | none =>
          { result := none, pbar := 1, apiCalled := true, scrapeCalled := true }
    | none =>
      match fetch_metadata_scrape pageResp with
      | some m =>
        { result := some (applyMetadata a1 m), pbar := 1, apiCalled := false, scrapeCalled := true }
      | none =>
        { result := none, pbar := 1, apiCalled := false, scrapeCalled := true }

/-- scraper.py `scraper_agent` line 290: before launching the tasks it
stores the entry LINK under the `feed_url` key (the comment there says it
adds the feed URL). -/
def scraper_set_feed_url (a : Article) : Article :=
  { a with feed_url := a.link }

/-- `fetch_metadata_api` against a stream of would-be responses: having no
retry loop, it consumes exactly the first one. The count is the number of
attempts made. -/
def fetch_metadata_api_run (resps : List (Option ApiResponse)) : Option Metadata × Nat :=
  match resps with
  | [] => (none, 0)
  | r :: _ => (fetch_metadata_api r, 1)

/-- `fetch_metadata_scrape` against a stream of would-be responses: one
attempt, no retry loop. -/
def fetch_metadata_scrape_run (resps : List (Option PageResponse)) : Option Metadata × Nat :=
  match resps with
  | [] => (none, 0)
  | r :: _ => (fetch_metadata_scrape r, 1)

/-! ## analyzer.py -/

/-- analyzer.py `OFFICIAL_LABELS` (lines 46-52); note that it contains
the sentinel (the source comment reads: Added Others as per your request). -/
def OFFICIAL_LABELS : List String :=
  ["Aging", "AI & Computational Biology", "Bioengineering", "Biotechnology",
   "Cancer", "Clinical & Medicine", "Development", "Drug Discovery",
   "Evolution", "Genetics & Epigenetics", "Immunology", "Metabolism",
   "Microbiology", "Molecular Design", "Plants", "Single-cell & Spatial omics",
   "Stem cell", "Structure", "Synthetic Biology", "Virtual Cell", "Others"]

/-- What one attempt of a remote AI call produces, as the retry loops in
analyzer.py/ranker.py observe it: a transport/status failure
(`httpx.HTTPStatusError`), an unparseable payload (`json.JSONDecodeError`),
some other exception, or a successfully parsed JSON object `α`. -/
inductive CallAttempt (α : Type) where
  | httpError
  | decodeError
  | unexpected
  | ok (payload : α)
deriving DecidableEq

/-- The parsed JSON object of one classification/translation response;
`none` fields model absent keys. -/
structure AnalysisResp where
  labels : Option (List String) := none
  title_cn : Option String := none
  abstract_cn : Option String := none
deriving DecidableEq

/-- The parsed JSON object of one relevance-scoring response; `none`
models an absent `relevance_score` key. -/
structure ScoreResp where
  relevance_score : Option Int := none
deriving DecidableEq

/-- The observable trace of one retry-looped call: returned value, backoff
delays slept (in order), number of `pbar.update(1)` calls, and number of
attempts actually made. -/
structure Trace (α : Type) where
  result : Option α := none
  sleeps : List Nat := []
  pbar : Nat := 0
  attempts : Nat := 0
deriving DecidableEq

/-- The `for attempt in range(max_retries)` loop of analyzer.py
`analyze_article` (lines 105-135). Retryable failures sleep
`(attempt + 2) * 2` then loop; a parsed object missing a required key
falls through to the next attempt with no sleep; an unexpected exception
updates the bar and returns `None`; loop exhaustion updates the bar and
returns `None`. On success the labels are filtered against
`OFFICIAL_LABELS`, an empty survivor list becoming `[Others]`. -/
def analyzeLoop (a : Article) (oracle : Nat → CallAttempt AnalysisResp) :
    Nat → Nat → Trace Article
  | 0, _ => { result := none, sleeps := [], pbar := 1, attempts := 0 }
  | fuel + 1, attempt =>
    match oracle attempt with
    | .unexpected => { result := none, sleeps := [], pbar := 1, attempts := 1 }
    | .httpError =>
      let t := analyzeLoop a oracle fuel (attempt + 1)
      { t with sleeps := (attempt + 2) * 2 :: t.sleeps, attempts := t.attempts + 1 }
    | .decodeError =>
      let t := analyzeLoop a oracle fuel (attempt + 1)
      { t with sleeps := (attempt + 2) * 2 :: t.sleeps, attempts := t.attempts + 1 }
    | .ok resp =>
      if resp.labels.isSome ∧ resp.title_cn.isSome ∧ resp.abstract_cn.isSome then
        let valid_labels := (resp.labels.getD []).filter (fun l => OFFICIAL_LABELS.contains l)
        let valid_labels := if valid_labels = [] then ["Others"] else valid_labels
        { result := some { a with labels := valid_labels
                                  title_cn := resp.title_cn.getD ""
                                  abstract_cn := resp.abstract_cn.getD "" }
          sleeps := [], pbar := 1, attempts := 1 }
      else
        let t := analyzeLoop a oracle fuel (attempt + 1)
        { t with attempts := t.attempts + 1 }

/-- analyzer.py `analyze_article` (lines 96-135): the retry loop with
`max_retries = 3`, starting at attempt index 0. The oracle gives the
outcome of each attempt. -/
def analyze_article (a : Article) (oracle : Nat → CallAttempt AnalysisResp) : Trace Article :=
  analyzeLoop a oracle 3 0

/-! ## ranker.py -/

/-- ranker.py `REPORT_LIMIT` (line 38). -/
def REPORT_LIMIT : Nat := 10

/-- ranker.py `JOURNAL_WEIGHTS` (lines 45-56), the explicit entries of the
defaultdict. -/
def JOURNAL_WEIGHTS : List (String × Rat) :=
  [("Nature", 1.5), ("Science", 1.5), ("Cell", 1.5), ("The Lancet", 1.5),
   ("NEJM", 1.5), ("Nature Medicine", 1.2), ("Nature Biotechnology", 1.2),
   ("Nature Genetics", 1.2), ("Nature Machine Intelligence", 1.2),
   ("Cancer Cell", 1.2)]

/-- ranker.py `get_journal_score` (lines 58-59): defaultdict lookup with
default 1.0. -/
def get_journal_score (a : Article) : Rat :=
  (JOURNAL_WEIGHTS.lookup a.journal).getD 1

/-- The `for attempt in range(max_retries)` loop of ranker.py
`score_article` (lines 100-128) together with the fallback after the loop
(lines 124-128). A parsed response reads
`int(result_data.get('relevance_score', 1))`, so an absent key scores 1.
Retryable failures sleep `(attempt + 2) * 2` and loop; an unexpected
exception updates the bar, breaks, and then runs the fallback (which
updates the bar again); loop exhaustion runs the fallback once. -/
def scoreLoop (a : Article) (label : String) (oracle : Nat → CallAttempt ScoreResp) :
    Nat → Nat → Trace Article
  | 0, _ =>
    { result := some { a with priority_score := get_journal_score a, ai_relevance := .score 0 }
      sleeps := [], pbar := 1, attempts := 0 }
  | fuel + 1, attempt =>
    match oracle attempt with
    | .unexpected =>
      { result := some { a with priority_score := get_journal_score a, ai_relevance := .score 0 }
        sleeps := [], pbar := 2, attempts := 1 }
    | .httpError =>
      let t := scoreLoop a label oracle fuel (attempt + 1)
      { t with sleeps := (attempt + 2) * 2 :: t.sleeps, attempts := t.attempts + 1 }
    | .decodeError =>
      let t := scoreLoop a label oracle fuel (attempt + 1)
      { t with sleeps := (attempt + 2) * 2 :: t.sleeps, attempts := t.attempts + 1 }
    | .ok resp =>
      let ai_score : Int := resp.relevance_score.getD 1
      { result := some { a with priority_score := (ai_score : Rat) * get_journal_score a
                                ai_relevance := .score ai_score }
        sleeps := [], pbar := 1, attempts := 1 }

/-- ranker.py `score_article` (lines 92-128): retry loop with
`max_retries = 3` plus journal-weight fallback. -/
def score_article (a : Article) (label : String) (oracle : Nat → CallAttempt ScoreResp) :
    Trace Article :=
  scoreLoop a label oracle 3 0

/-- Stable descending insertion by `priority_score`, modelling Python
`sorted(key=priority_score, reverse=True)`: an element moves past another
only when its score is strictly larger. -/
def insertDesc (a : Article) : List Article → List Article
  | [] => [a]
  | b :: bs =>
    if a.priority_score < b.priority_score then b :: insertDesc a bs
    else a :: b :: bs

/-- Stable descending sort by `priority_score`. -/
def sortByPriorityDesc (l : List Article) : List Article :=
  l.foldr insertDesc []

/-- One iteration of the per-label loop of ranker.py `ranker_agent`
(lines 179-208): the sentinel label is skipped outright; a group of at
most `REPORT_LIMIT` articles gets journal-weight scores and the
not-applicable relevance marker with no scoring call; larger groups have
every member scored by `score_article` (one call per record, with its own
oracle), then sorted and truncated. Returns the emitted list (`none` for
the skipped sentinel) and the number of scoring calls issued. -/
def rankerLabelStep (label : String) (label_articles : List Article)
    (oracles : Nat → Nat → CallAttempt ScoreResp) : Option (List Article) × Nat :=
  if label = "Others" then (none, 0)
  else if label_articles.length ≤ REPORT_LIMIT then
    let scored := label_articles.map
      (fun a => { a with priority_score := get_journal_score a, ai_relevance := AIRel.na })
    (some ((sortByPriorityDesc scored).take REPORT_LIMIT), 0)
  else
    let results := label_articles.enum.map
      (fun p => ((score_article p.2 label (oracles p.1)).result).getD p.2)
    (some ((sortByPriorityDesc results).take REPORT_LIMIT), label_articles.length)

/-! ## Claim C1 -/

/-- A Semantic Scholar response that `fetch_metadata_api` accepts. -/
def goodApiResp : ApiResponse :=
  { status_code := 200, abstract := some "Plenty of abstract text", authors := [] }

/-- C1 is false on the code: the enrichment source calls are not retried.
With a response stream whose first element is a transport failure and
whose second would succeed, `fetch_metadata_api` makes exactly one attempt
and returns `None`, although the very next response would have been
accepted; no backoff delay ever occurs (scraper.py lines 96-124 contain no
retry loop). -/
theorem c1_counterexample :
    fetch_metadata_api_run [none, some goodApiResp] = (none, 1) ∧
    (fetch_metadata_api (some goodApiResp)).isSome = true := by
  exact ⟨rfl, rfl⟩

/-- C1 amended: the classification and relevance-scoring calls are
attempted up to 3 times with backoff delays (attempt + 2) * 2 = 4, 6, 8
before retries of transport/status and payload-parse failures, but the
enrichment source calls (DOI metadata lookup and article-page fetch) are
attempted exactly once each, with no retry and no backoff. -/
theorem c1_amended_retry :
    (∀ resps, (fetch_metadata_api_run resps).2 ≤ 1) ∧
    (∀ resps, (fetch_metadata_scrape_run resps).2 ≤ 1) ∧
    (∀ a : Article,
      (analyze_article a (fun _ => CallAttempt.httpError)).sleeps = [4, 6, 8] ∧
      (analyze_article a (fun _ => CallAttempt.httpError)).attempts = 3 ∧
      (analyze_article a (fun _ => CallAttempt.httpError)).result = none) ∧
    (∀ (a : Article) (label : String),
      (score_article a label (fun _ => CallAttempt.httpError)).sleeps = [4, 6, 8] ∧
      (score_article a label (fun _ => CallAttempt.httpError)).attempts = 3) := by
  refine ⟨?_, ?_, ?_, ?_⟩
  · intro resps
    cases resps <;> simp [fetch_metadata_api_run]
  · intro resps
    cases resps <;> simp [fetch_metadata_scrape_run]
  · intro a
    exact ⟨rfl, rfl, rfl⟩
  · intro a label
    exact ⟨rfl, rfl⟩

/-! ## Claim C2 -/

/-- Per-attempt progress-counter invariant for the analyzer loop: exactly
one `pbar.update(1)` per item, whatever the outcomes. -/
theorem analyzeLoop_pbar (a : Article) (oracle : Nat → CallAttempt AnalysisResp) :
    ∀ fuel attempt, (analyzeLoop a oracle fuel attempt).pbar = 1 := by
  intro fuel
  induction fuel with
  | zero => intro attempt; rfl
  | succ n ih =>
    intro attempt
    simp only [analyzeLoop]
    cases oracle attempt with
    | unexpected => rfl
    | httpError => simpa using ih (attempt + 1)
    | decodeError => simpa using ih (attempt + 1)
    | ok resp =>
      by_cases h : resp.labels.isSome ∧ resp.title_cn.isSome ∧ resp.abstract_cn.isSome
      · simp [h]
      · simpa [h] using ih (attempt + 1)

/-- C2 fails on the code for the relevance-scoring batch: the enrichment
and classification items update the progress counter exactly once on
every path, but `score_article` updates it twice when an unexpected
exception occurs (once in the handler at ranker.py line 121, once in the
post-loop fallback at line 127). -/
theorem c2_progress_counts :
    (∀ (a : Article) (oracle : Nat → CallAttempt AnalysisResp),
      (analyze_article a oracle).pbar = 1) ∧
    (∀ (a : Article) (doiRes : Option String) (apiResp : Option ApiResponse)
        (pageResp : Option PageResponse),
      (process_article a doiRes apiResp pageResp).pbar = 1) ∧
    (score_article {} "Cancer" (fun _ => CallAttempt.unexpected)).pbar = 2 := by
  refine ⟨?_, ?_, rfl⟩
  · intro a oracle
    exact analyzeLoop_pbar a oracle 3 0
  · intro a doiRes apiResp pageResp
    by_cases hf : (is_likely_research_article a).1
    · cases doiRes with
      | none =>
        cases hS : fetch_metadata_scrape pageResp <;> simp [process_article, hf, hS]
      | some doi =>
        cases hA : fetch_metadata_api apiResp with
        | none =>
          cases hS : fetch_metadata_scrape pageResp <;> simp [process_article, hf, hA, hS]
        | some m => simp [process_article, hf, hA]
    · simp [process_article, hf]

/-! ## Claim C3 -/

/-- An entry obtained from the Science news feed
(science.org/rss/news_current.xml) whose own link and title carry no
non-research marker. -/
def newsFeedEntry : FeedEntry :=
  { title := "Giant study maps cancer genomes"
    link := "https://www.science.org/doi/10.1126/science.zr1"
    published_parsed := some 900000 }

/-- C3 is right about the filter rules but the pipeline defeats the
feed-based one: scraper.py line 290 stores the entry LINK under
`feed_url` (the comment there claims it stores the feed URL), and the
fetcher record carries no feed provenance at all, so an entry that came
from the Science news feed passes the filter whenever its link and title
are clean. First conjunct: the pipeline (fetcher record for a news-feed
entry, then `scraper_agent`'s `feed_url` assignment) ACCEPTS such an
entry. Second conjunct: had `feed_url` actually held the source feed URL,
the very same entry would be rejected by the dedicated branch. -/
theorem c3_feed_filter_eval :
    (is_likely_research_article
      (scraper_set_feed_url (mkRawRecord "Science (News)" newsFeedEntry 900000))).1 = true ∧
    (is_likely_research_article
      { title := "Giant study maps cancer genomes"
        link := "https://www.science.org/doi/10.1126/science.zr1"
        feed_url := "https://www.science.org/rss/news_current.xml" }).1 = false := by
  exact ⟨by decide, by decide⟩

/-! ## Claim C4 -/

/-- C4 is false on the code for the relevance-scoring call: a parsed
response with no `relevance_score` key is accepted on the spot —
`int(result_data.get('relevance_score', 1))` defaults the score to 1
(ranker.py line 107) — with no retry and no backoff, instead of being
treated as a retryable validation failure. -/
theorem c4_counterexample :
    (score_article {} "Cancer" (fun _ => CallAttempt.ok {})).attempts = 1 ∧
    (score_article {} "Cancer" (fun _ => CallAttempt.ok {})).sleeps = [] ∧
    (score_article {} "Cancer" (fun _ => CallAttempt.ok {})).result.map
      (fun r => r.ai_relevance) = some (AIRel.score 1) ∧
    (score_article {} "Cancer" (fun _ => CallAttempt.ok {})).result.map
      (fun r => r.priority_score) = some 1 := by
  refine ⟨rfl, rfl, rfl, ?_⟩
  show some (((1 : Int) : ℚ) * get_journal_score {}) = some 1
  have h : get_journal_score ({} : Article) = 1 := rfl
  rw [h]
  norm_num

/-- C4 amended: the classification call never accepts a parsed response
with a missing required key — it re-attempts immediately, without any
backoff delay, up to the 3-attempt limit and then gives the item up —
while the relevance-scoring call accepts such a response, defaulting the
missing `relevance_score` to 1. -/
theorem c4_amended_validation :
    (∀ a : Article,
      (analyze_article a (fun _ => CallAttempt.ok {})).result = none ∧
      (analyze_article a (fun _ => CallAttempt.ok {})).sleeps = [] ∧
      (analyze_article a (fun _ => CallAttempt.ok {})).attempts = 3 ∧
      (analyze_article a (fun _ => CallAttempt.ok {})).pbar = 1) ∧
    (∀ (a : Article) (label : String),
      (score_article a label (fun _ => CallAttempt.ok {})).attempts = 1 ∧
      (score_article a label (fun _ => CallAttempt.ok {})).sleeps = [] ∧
      (score_article a label (fun _ => CallAttempt.ok {})).result.map
        (fun r => r.ai_relevance) = some (AIRel.score 1)) := by
  constructor
  · intro a
    exact ⟨rfl, rfl, rfl, rfl⟩
  · intro a label
    exact ⟨rfl, rfl, rfl⟩

/-! ## Claim C5 -/

/-- C5 is false on the code: `OFFICIAL_LABELS` itself contains the
sentinel (analyzer.py line 51), so a service response pairing a real
topic label with the sentinel passes the filter unchanged and the output
record carries both. -/
theorem c5_counterexample :
    ((analyze_article {} (fun _ => CallAttempt.ok
        { labels := some ["Cancer", "Others"]
          title_cn := some "t", abstract_cn := some "a" })).result.map
      (fun r => r.labels)) = some ["Cancer", "Others"] ∧
    OFFICIAL_LABELS.contains "Cancer" = true := by
  exact ⟨by decide, by decide⟩

/-- Does an analyzer result (when produced) carry a non-empty label list
drawn from `OFFICIAL_LABELS`? -/
def labelsOk (o : Option Article) : Bool :=
  match o with
  | none => true
  | some a => !a.labels.isEmpty && a.labels.all (fun l => OFFICIAL_LABELS.contains l)

/-- The label list the analyzer success path installs (the filtered
response labels, or `[Others]` when none survive) is non-empty and drawn
from `OFFICIAL_LABELS`. -/
theorem labels_choice_ok (ls : List String) :
    (if ls.filter (fun l => OFFICIAL_LABELS.contains l) = [] then ["Others"]
     else ls.filter (fun l => OFFICIAL_LABELS.contains l)).isEmpty = false ∧
    (if ls.filter (fun l => OFFICIAL_LABELS.contains l) = [] then ["Others"]
     else ls.filter (fun l => OFFICIAL_LABELS.contains l)).all
      (fun l => OFFICIAL_LABELS.contains l) = true := by
  by_cases hv : ls.filter (fun l => OFFICIAL_LABELS.contains l) = []
  · rw [if_pos hv]
    exact ⟨rfl, by decide⟩
  · rw [if_neg hv]
    constructor
    · cases hc : ls.filter (fun l => OFFICIAL_LABELS.contains l) with
      | nil => exact absurd hc hv
      | cons x xs => rfl
    · rw [List.all_eq_true]
      intro l hl
      exact (List.mem_filter.mp hl).2

/-- Invariant of the analyzer loop: any produced record has a non-empty
label list whose members all come from `OFFICIAL_LABELS`. -/
theorem analyzeLoop_labelsOk (a : Article) (oracle : Nat → CallAttempt AnalysisResp) :
    ∀ fuel attempt, labelsOk (analyzeLoop a oracle fuel attempt).result = true := by
  intro fuel
  induction fuel with
  | zero => intro attempt; rfl
  | succ n ih =>
    intro attempt
    simp only [analyzeLoop]
    cases oracle attempt with
    | unexpected => rfl
    | httpError => simpa using ih (attempt + 1)
    | decodeError => simpa using ih (attempt + 1)
    | ok resp =>
      dsimp only
      by_cases h : resp.labels.isSome ∧ resp.title_cn.isSome ∧ resp.abstract_cn.isSome
      · rw [if_pos h]
        have hlc := labels_choice_ok (resp.labels.getD [])
        simp only [labelsOk]
        rw [Bool.and_eq_true, Bool.not_eq_true']
        exact ⟨hlc.1, hlc.2⟩
      · simpa [h] using ih (attempt + 1)

/-- C5 amended: every record the classification stage produces has a
non-empty `labels` list each of whose members belongs to the fixed
vocabulary `OFFICIAL_LABELS` (which includes the sentinel), and a
response with no valid label yields exactly `[Others]`; but the sentinel
may co-occur with real topic labels, since the sentinel is itself a
vocabulary member. -/
theorem c5_amended_labels :
    (∀ (a : Article) (oracle : Nat → CallAttempt AnalysisResp),
      labelsOk (analyze_article a oracle).result = true) ∧
    (∀ a : Article,
      ((analyze_article a (fun _ => CallAttempt.ok
          { labels := some ["Bogus Label"]
            title_cn := some "t", abstract_cn := some "a" })).result.map
        (fun r => r.labels)) = some ["Others"]) := by
  constructor
  · intro a oracle
    exact analyzeLoop_labelsOk a oracle 3 0
  · intro a
    rfl

/-! ## Claim C6 -/

/-- The fetcher loop equals: filter to the date-window survivors with a
non-empty link, then first-occurrence dedup by link, then record
construction. The date filter runs BEFORE dedup, so the dedup winner is
the first surviving entry, not the first encountered one. -/
theorem fetcherLoop_eq (cutoff : Int) :
    ∀ (entries : List (String × FeedEntry)) (seen : List String),
      fetcherLoop cutoff entries seen =
        (dedupFirstByLink seen (entries.filter (fun p => survives cutoff p))).map
          (fun p => mkRawRecord p.1 p.2 ((parse_pubdate p.2).getD 0)) := by
  intro entries
  induction entries with
  | nil => intro seen; rfl
  | cons p rest ih =>
    intro seen
    obtain ⟨journal, e⟩ := p
    cases hd : parse_pubdate e with
    | none =>
      have hs : survives cutoff (journal, e) = false := by
        simp [survives, hd]
      simp [fetcherLoop, hd, hs, ih seen]
    | some d =>
      by_cases h1 : d < cutoff
      · have hs : survives cutoff (journal, e) = false := by
          simp [survives, hd, h1]
        simp [fetcherLoop, hd, h1, hs, ih seen]
      · by_cases h2 : e.link = ""
        · have hs : survives cutoff (journal, e) = false := by
            simp [survives, hd, h2]
          simp [fetcherLoop, hd, h1, h2, hs, ih seen]
        · have hs : survives cutoff (journal, e) = true := by
            simp [survives, hd, h1, h2]
          by_cases h3 : e.link ∈ seen
          · simp [fetcherLoop, hd, h1, h2, h3, hs, dedupFirstByLink, ih seen]
          · simp [fetcherLoop, hd, h1, h2, h3, hs, dedupFirstByLink, ih (e.link :: seen)]

/-- C6 is false on the code in its first-encountered clause: the date
window is applied before deduplication, so when the first entry carrying
a link fails the window and a later duplicate passes it, the emitted
record names the LATER entry's journal (here "B", not the
first-encountered "A"); and when every entry carrying the link fails the
window, no record appears at all. -/
theorem c6_counterexample :
    (fetcher_agent 1000000 2
        [("A", { link := "https://x.org/p1", published_parsed := some 0 }),
         ("B", { link := "https://x.org/p1", published_parsed := some 900000 })]).map
      (fun r => r.journal) = ["B"] ∧
    fetcher_agent 1000000 2
        [("A", { link := "https://x.org/p1", published_parsed := some 0 }),
         ("B", { link := "https://x.org/p1", published_parsed := some 0 })] = [] := by
  exact ⟨by decide, by decide⟩

/-- C6 amended: the dedup/date-window stage equals filtering the entries
to those whose publication date parsed and is at least now − lookback
(the cutoff instant itself inclusive, unparseable dates discarded, empty
links discarded), followed by first-occurrence deduplication by link — so
among entries with identical link the one record that appears (when any
survives the window) names the journal of the first entry that PASSES the
window. The closed conjunct checks the inclusive boundary: an entry dated
exactly at the cutoff (now − days·86400) is kept. -/
theorem c6_amended_dedup :
    (∀ (now days : Int) (entries : List (String × FeedEntry)),
      fetcher_agent now days entries =
        (dedupFirstByLink [] (entries.filter (fun p => survives (now - days * 86400) p))).map
          (fun p => mkRawRecord p.1 p.2 ((parse_pubdate p.2).getD 0))) ∧
    (fetcher_agent 1000000 2
        [("J", { link := "https://x.org/b", published_parsed := some 827200 })]).length = 1 := by
  constructor
  · intro now days entries
    exact fetcherLoop_eq (now - days * 86400) entries []
  · decide

/-! ## Claim C7 -/

/-- Does a metadata value produced by the DOI lookup (when any) carry a
non-empty abstract? -/
def apiAbstractOk (o : Option Metadata) : Bool :=
  match o with
  | none => true
  | some m => !(m.abstract == "")

/-- C7 confirmed: when the filter passes, the DOI lookup is attempted
exactly when a DOI was extracted; the page scrape is attempted exactly
when the filter passed and the DOI lookup did not succeed; the record
survives exactly when one of the two sources succeeded (so with neither,
it is dropped and `scraper_agent` line 297 keeps only surviving results);
`fetch_metadata_api` only succeeds on a non-empty abstract; and a
successful lookup may carry an empty author list. -/
theorem c7_enrichment_chain :
    (∀ (a : Article) (doiRes : Option String) (apiResp : Option ApiResponse)
        (pageResp : Option PageResponse),
      (process_article a doiRes apiResp pageResp).apiCalled =
        ((is_likely_research_article a).1 && doiRes.isSome) ∧
      (process_article a doiRes apiResp pageResp).scrapeCalled =
        ((is_likely_research_article a).1 &&
          !(doiRes.isSome && (fetch_metadata_api apiResp).isSome)) ∧
      (process_article a doiRes apiResp pageResp).result.isSome =
        ((is_likely_research_article a).1 &&
          ((doiRes.isSome && (fetch_metadata_api apiResp).isSome) ||
            (fetch_metadata_scrape pageResp).isSome))) ∧
    (∀ apiResp, apiAbstractOk (fetch_metadata_api apiResp) = true) ∧
    (fetch_metadata_api (some goodApiResp)).map (fun m => m.authors_full) = some [] := by
  refine ⟨?_, ?_, rfl⟩
  · intro a doiRes apiResp pageResp
    by_cases hf : (is_likely_research_article a).1
    · cases doiRes with
      | none =>
        cases hS : fetch_metadata_scrape pageResp <;>
          simp [process_article, hf, hS]
      | some doi =>
        cases hA : fetch_metadata_api apiResp with
        | none =>
          cases hS : fetch_metadata_scrape pageResp <;>
            simp [process_article, hf, hA, hS]
        | some m => simp [process_article, hf, hA]
    · simp [process_article, hf]
  · intro apiResp
    cases apiResp with
    | none => rfl
    | some r =>
      simp only [fetch_metadata_api]
      by_cases hs : r.status_code = 200
      · rw [if_pos hs]
        cases hab : r.abstract with
        | none => rfl
        | some s =>
          dsimp only
          by_cases he : s = ""
          · rw [if_pos he]
            rfl
          · rw [if_neg he]
            simp [apiAbstractOk, he]
      · rw [if_neg hs]
        rfl

/-! ## Claim C8 -/

/-- C8 confirmed: applying resolved metadata overwrites both date fields
with the enrichment date exactly when one is present (normalized to UTC
when naive, kept as-is otherwise) and leaves them unchanged when absent;
nothing consults the original date window, so the closed conjunct shows a
record dated inside a 500-cutoff window being moved to an instant outside
it. -/
theorem c8_date_override :
    (∀ (a : Article) (m : Metadata),
      (applyMetadata a m).published_iso =
        (match m.published_date_obj with
         | some d => if d.tz = none then { d with tz := some 0 } else d
         | none => a.published_iso) ∧
      (applyMetadata a m).published_display =
        (match m.published_date_obj with
         | some d => if d.tz = none then { d with tz := some 0 } else d
         | none => a.published_display)) ∧
    (applyMetadata
        { published_iso := { wall := 600, tz := some 0 }
          published_display := { wall := 600, tz := some 0 } }
        { abstract := "x", published_date_obj := some { wall := 100 } }).published_iso =
      { wall := 100, tz := some 0 } := by
  refine ⟨?_, rfl⟩
  intro a m
  cases hm : m.published_date_obj with
  | none => simp [applyMetadata, hm]
  | some d =>
    by_cases ht : d.tz = none <;> simp [applyMetadata, hm, ht]

/-! ## Claim C9 -/

/-- Membership in a descending insertion adds nothing beyond the inserted
element and the old list. -/
theorem mem_insertDesc {x a : Article} :
    ∀ {l : List Article}, x ∈ insertDesc a l → x = a ∨ x ∈ l := by
  intro l
  induction l with
  | nil =>
    intro h
    simp only [insertDesc] at h
    exact Or.inl (List.mem_singleton.mp h)
  | cons b bs ih =>
    intro h
    simp only [insertDesc] at h
    split at h
    · rcases List.mem_cons.mp h with h1 | h2
      · exact Or.inr (List.mem_cons.mpr (Or.inl h1))
      · rcases ih h2 with h3 | h4
        · exact Or.inl h3
        · exact Or.inr (List.mem_cons.mpr (Or.inr h4))
    · rcases List.mem_cons.mp h with h1 | h2
      · exact Or.inl h1
      · exact Or.inr h2

/-- The descending sort permutes membership downward: every member of the
sorted list was in the input. -/
theorem mem_sortByPriorityDesc {x : Article} :
    ∀ {l : List Article}, x ∈ sortByPriorityDesc l → x ∈ l := by
  intro l
  induction l with
  | nil =>
    intro h
    simp [sortByPriorityDesc] at h
  | cons b bs ih =>
    intro h
    rcases mem_insertDesc (l := sortByPriorityDesc bs) h with h1 | h2
    · exact List.mem_cons.mpr (Or.inl h1)
    · exact List.mem_cons.mpr (Or.inr (ih h2))

/-- C9 confirmed: for a non-sentinel label whose group has at most
`REPORT_LIMIT` (10) records, the ranker issues zero scoring calls and
emits records whose `priority_score` equals their own journal weight
(`get_journal_score`, the override-table lookup defaulting to 1) with the
not-applicable relevance marker. -/
theorem c9_skip_rule (label : String) (label_articles : List Article)
    (oracles : Nat → Nat → CallAttempt ScoreResp)
    (hL : label ≠ "Others") (hn : label_articles.length ≤ REPORT_LIMIT) :
    (rankerLabelStep label label_articles oracles).2 = 0 ∧
    ∃ out, (rankerLabelStep label label_articles oracles).1 = some out ∧
      ∀ r ∈ out, r.priority_score = get_journal_score r ∧ r.ai_relevance = AIRel.na := by
  have hstep : rankerLabelStep label label_articles oracles =
      (some ((sortByPriorityDesc (label_articles.map
          (fun a => { a with priority_score := get_journal_score a
                             ai_relevance := AIRel.na }))).take REPORT_LIMIT), 0) := by
    simp [rankerLabelStep, hL, hn]
  refine ⟨by rw [hstep], ?_⟩
  refine ⟨_, by rw [hstep], ?_⟩
  intro r hr
  have hr1 : r ∈ sortByPriorityDesc (label_articles.map
      (fun a => { a with priority_score := get_journal_score a
                         ai_relevance := AIRel.na })) :=
    List.take_subset _ _ hr
  have hr2 := mem_sortByPriorityDesc hr1
  obtain ⟨b, _, rfl⟩ := List.mem_map.mp hr2
  exact ⟨rfl, rfl⟩

/-- Witness for C9 at a concrete input: label "Cancer", one record, the
oracle irrelevant; zero calls, journal-weight score, marker set. -/
theorem c9_skip_rule_witness :
    (rankerLabelStep "Cancer" [{}] (fun _ _ => CallAttempt.unexpected)).2 = 0 ∧
    (rankerLabelStep "Cancer" [{}] (fun _ _ => CallAttempt.unexpected)).1 =
      some [{ priority_score := 1, ai_relevance := AIRel.na }] := by
  have h := c9_skip_rule "Cancer" [{}] (fun _ _ => CallAttempt.unexpected)
    (by decide) (by decide)
  exact ⟨h.1, by decide⟩

/-! ## Claim C10 -/

/-- A 200-character abstract, exactly at the length gate. -/
def longAbstract : String := String.mk (List.replicate 200 'a')

/-- A scrape-source page carrying a long valid abstract but no
`citation_author` metadata. -/
def pageNoAuthors : PageResponse :=
  { abstract := some longAbstract, citationAuthors := [] }

/-- C10 confirmed: page extraction succeeds exactly when the type gate
passes, the stripped abstract exists, is non-empty and reaches the
200-character threshold, AND at least one `citation_author` was found
(the final `if abstract and authors` guard, scraper.py line 170); the
closed conjunct runs `process_article` on a filter-passing record whose
DOI lookup got a 404 and whose page has a valid long abstract but no
authors: the record is dropped. -/
theorem c10_scrape_gates :
    (∀ p : PageResponse,
      (fetch_metadata_scrape (some p)).isSome =
        (!typeGateRejects p.articleType &&
          (match p.abstract.map pyStrip with
           | none => false
           | some s => !decide (s = "") && !decide (s.length < MIN_ABSTRACT_LENGTH)) &&
          !decide (p.citationAuthors = []))) ∧
    (process_article
        { title := "A tale of two cells"
          link := "https://www.science.org/doi/10.1126/science.zr1" }
        (some "10.1126/science.zr1")
        (some { status_code := 404 })
        (some pageNoAuthors)).result = none := by
  constructor
  · intro p
    simp only [fetch_metadata_scrape]
    cases hg : typeGateRejects p.articleType with
    | true => simp [hg]
    | false =>
      simp only [hg, Bool.not_false, Bool.true_and, if_false, Bool.false_eq_true]
      cases hab : p.abstract.map pyStrip with
      | none => simp
      | some s =>
        dsimp only
        by_cases h1 : s = ""
        · simp [h1]
        · by_cases h2 : s.length < MIN_ABSTRACT_LENGTH
          · simp [h1, h2]
          · by_cases h3 : p.citationAuthors = [] <;> simp [h1, h2, h3]
  · decide
